import Mathlib

/-!
Deploy scripts and unit-test suite of hardhat-fund-me-fcc.

A shallow embedding of `deploy/00-deploy-mocks.js`, `deploy/01-deploy-fund-me.js`
and `test/unit/FundMe.test.js`.

The scripts are sequences of awaited calls into the deployment framework. They are
embedded as explicit state passing over a `World` (artifact store plus the trace of
effects issued so far); a thrown exception / rejected promise is the `.error` branch of
the returned `Except`, and the world reached at that point is returned with it.
-/

namespace FundMe

/-! ## JavaScript values -/

/-- The JavaScript values that reach the deploy scripts. -/
inductive JsVal where
  | undefined
  | null
  | bool (b : Bool)
  | num (n : Int)
  | str (s : String)
  deriving DecidableEq, Repr

/-- JavaScript ToBoolean (numbers are integers here, so there is no NaN). -/
def JsVal.truthy : JsVal → Bool
  | .undefined => false
  | .null => false
  | .bool b => b
  | .num n => n != 0
  | .str s => s != ""

/-- The JavaScript operator `a || b`. -/
def JsVal.or (a b : JsVal) : JsVal :=
  if a.truthy then a else b

/-- A thrown JavaScript exception, by its message. -/
abbrev JsError := String

/-! ## hardhat runtime environment, helper config, process environment -/

/-- The object `network.config`, restricted to the fields the scripts read. An absent field
reads as `undefined`. -/
structure NetworkConfig where
  chainId : JsVal
  blockConfirmations : JsVal
  deriving DecidableEq, Repr

/-- The object `network` of hardhat. -/
structure Network where
  name : String
  config : NetworkConfig
  deriving DecidableEq, Repr

/-- One entry `networkConfig[chainId]`; an absent `ethUsdPriceFeed` reads as `undefined`. -/
structure NetworkConfigEntry where
  ethUsdPriceFeed : JsVal
  deriving DecidableEq, Repr

/-- The exports of `helper-hardhat-config.js`, which is not among the sources and is taken as a
parameter. `networkConfig key` is the result of the property read `networkConfig[key]`:
`none` when that read gives `undefined`, so that reading a property of it throws. -/
structure HelperConfig where
  networkConfig : JsVal → Option NetworkConfigEntry
  developmentChains : List String
  DECIMALS : JsVal
  INITIAL_ANSWER : JsVal

/-- The variable `process.env`, restricted to the key the scripts read. -/
structure ProcessEnv where
  ETHERSCAN_API_KEY : Option String
  deriving DecidableEq, Repr

/-- ToBoolean of a value of `process.env`: a string or `undefined`. -/
def envTruthy : Option String → Bool
  | none => false
  | some s => (JsVal.str s).truthy

/-- The options object passed to `deploy(name, options)`; a key the caller leaves out is
`undefined`. -/
structure DeployOptions where
  contract : JsVal
  from_ : JsVal
  log : Bool
  args : List JsVal
  waitConfirmations : JsVal
  deriving DecidableEq, Repr

/-- A deployment record kept by the framework: deployed address and constructor arguments. -/
structure Deployment where
  address : String
  args : List JsVal
  deriving DecidableEq, Repr

/-- The artifact store: deployments by name, most recent first. -/
abbrev ArtifactStore := List (String × Deployment)

/-- The effects of the verification helper: a submission to the block explorer, a console line. -/
inductive HelperEvent where
  | submit (address : JsVal) (args : List JsVal)
  | console (msg : String)
  deriving DecidableEq, Repr

/-- The effects a deploy script issues, in the order issued: a line through `deployments.log`, a
call of `deployments.deploy`, a call of the imported `verify`, and what that helper does. -/
inductive Event where
  | log (msg : String)
  | deploy (name : String) (options : DeployOptions)
  | verify (address : JsVal) (args : List JsVal)
  | helper (e : HelperEvent)
  deriving DecidableEq, Repr

/-- Artifact store and effect trace, threaded through a run. -/
structure World where
  store : ArtifactStore
  trace : List Event
  deriving DecidableEq, Repr

/-- The world before anything has run. -/
def World.empty : World := ⟨[], []⟩

/-- What a script receives from hardhat: `network`, the resolved `deployer` named account
(`(await getNamedAccounts()).deployer`, `undefined` when no such account is named), and the
response of the chain to a deploy call: the deployed address, or the failure it raises. -/
structure Hre where
  network : Network
  deployer : JsVal
  deployOutcome : ArtifactStore → String → DeployOptions → Except JsError String

/-- The result of an awaited call: a value or a thrown error, with the world reached. -/
abbrev Step (α : Type) := Except JsError α × World

/-- Append one effect to the trace. -/
def World.emit (w : World) (e : Event) : World :=
  { w with trace := w.trace ++ [e] }

/-- Append the effects of the verification helper to the trace. -/
def World.emitHelper (w : World) (es : List HelperEvent) : World :=
  { w with trace := w.trace ++ es.map Event.helper }

/-- The imported function `verify(address, args)` as its caller sees it: the awaited call returns
or throws, having had some effects. -/
abbrev VerifyFn := JsVal → List JsVal → Except JsError Unit × List HelperEvent

/-- The call `deployments.log(msg)`. -/
def log (msg : String) (w : World) : World :=
  w.emit (.log msg)

/-- The call `deployments.get(name)`: the most recent deployment of that name; throws when there
is none. -/
def get (name : String) (w : World) : Except JsError Deployment :=
  match w.store.lookup name with
  | some d => .ok d
  | none => .error ("No deployment found for: " ++ name)

/-- The call `deployments.deploy(name, options)`: the call is issued; when the chain accepts it the
record (address, constructor arguments) is stored under `name` and returned. -/
def deploy (hre : Hre) (name : String) (options : DeployOptions) (w : World) : Step Deployment :=
  let w1 := w.emit (.deploy name options)
  match hre.deployOutcome w.store name options with
  | .error e => (.error e, w1)
  | .ok addr =>
    let d : Deployment := { address := addr, args := options.args }
    (.ok d, { w1 with store := (name, d) :: w1.store })

/-! ## deploy/00-deploy-mocks.js -/

/-- The options of the `deploy("MockV3Aggregator", ...)` call (lines 21-29). -/
def mockOptions (cfg : HelperConfig) (hre : Hre) : DeployOptions :=
  { contract := .str "MockV3Aggregator"
    from_ := hre.deployer
    log := true
    args := [cfg.DECIMALS, cfg.INITIAL_ANSWER]
    waitConfirmations := .undefined }

/-- The exported function of `00-deploy-mocks.js`. -/
def deployMocks (cfg : HelperConfig) (hre : Hre) (w : World) : Step Unit :=
  if hre.network.name ∈ cfg.developmentChains then
    let w1 := log "Local network detected! Deploying mocks..." w
    match deploy hre "MockV3Aggregator" (mockOptions cfg hre) w1 with
    | (.error e, w2) => (.error e, w2)
    | (.ok _, w2) =>
      let w3 := log "Mocks deployed!" w2
      (.ok (), log "---------------------------------------" w3)
  else
    (.ok (), w)

/-- The tags `module.exports.tags` of `00-deploy-mocks.js`. -/
def deployMocksTags : List String := ["all", "mocks"]

/-! ## deploy/01-deploy-fund-me.js -/

/-- The value assigned to `ethUsdPriceFeedAddress` (lines 49-59): the address of the stored mock on
a development chain, the configured feed otherwise. -/
def ethUsdPriceFeedAddress (cfg : HelperConfig) (hre : Hre) (w : World) : Except JsError JsVal :=
  if hre.network.name ∈ cfg.developmentChains then
    match get "MockV3Aggregator" w with
    | .error e => .error e
    | .ok ethUsdAggregator => .ok (.str ethUsdAggregator.address)
  else
    match cfg.networkConfig hre.network.config.chainId with
    | none => .error "TypeError: Cannot read properties of undefined (reading ethUsdPriceFeed)"
    | some entry => .ok entry.ethUsdPriceFeed

/-- The options of the `deploy("FundMe", ...)` call (lines 66-76). -/
def fundMeOptions (hre : Hre) (args : List JsVal) : DeployOptions :=
  { contract := .undefined
    from_ := hre.deployer
    args := args
    log := true
    waitConfirmations := hre.network.config.blockConfirmations.or (.num 1) }

/-- The exported function of `01-deploy-fund-me.js`. The imported `verify` is a parameter. -/
def deployFundMe (cfg : HelperConfig) (hre : Hre) (env : ProcessEnv)
    (verify : VerifyFn) (w : World) : Step Unit :=
  match ethUsdPriceFeedAddress cfg hre w with
  | .error e => (.error e, w)
  | .ok feed =>
    let args := [feed]
    match deploy hre "FundMe" (fundMeOptions hre args) w with
    | (.error e, w1) => (.error e, w1)
    | (.ok fundMe, w1) =>
      if hre.network.name ∉ cfg.developmentChains ∧ envTruthy env.ETHERSCAN_API_KEY = true then
        let w2 := w1.emit (.verify (.str fundMe.address) args)
        match verify (.str fundMe.address) args with
        | (.error e, es) => (.error e, w2.emitHelper es)
        | (.ok _, es) =>
          (.ok (), log "---------------------------------------------------------" (w2.emitHelper es))
      else
        (.ok (), log "---------------------------------------------------------" w1)

/-- The tags `module.exports.tags` of `01-deploy-fund-me.js`. -/
def deployFundMeTags : List String := ["all", "fundme"]

/-! ## utils/verify.js -/

/-- Modelled from the spec: `utils/verify.js` is not among the sources. Section 4.3: given a
deployed address and constructor arguments, submit them to the explorer for verification; a
verification failure is non-fatal to the deployment (logged, not thrown). `explorer` is the
response of the block explorer to the submission. -/
def verify (explorer : JsVal → List JsVal → Except JsError Unit) : VerifyFn :=
  fun address args =>
    match explorer address args with
    | .ok _ => (.ok (), [.submit address args])
    | .error e => (.ok (), [.submit address args, .console e])

/-! ## running the deploy folder by tag -/

/-- A file of the deploy folder: its name, its tags and its exported function. -/
structure DeployScript where
  file : String
  tags : List String
  func : World → Step Unit

/-- The deploy folder, in file-name order. -/
def deployScripts (cfg : HelperConfig) (hre : Hre) (env : ProcessEnv)
    (verify : VerifyFn) : List DeployScript :=
  [ { file := "00-deploy-mocks.js", tags := deployMocksTags, func := deployMocks cfg hre },
    { file := "01-deploy-fund-me.js", tags := deployFundMeTags,
      func := deployFundMe cfg hre env verify } ]

/-- Run scripts one after the other; the first failure aborts the rest. -/
def runScripts : List DeployScript → World → Step Unit
  | [], w => (.ok (), w)
  | s :: rest, w =>
    match s.func w with
    | (.error e, w1) => (.error e, w1)
    | (.ok _, w1) => runScripts rest w1

/-- The command `hardhat deploy --tags tag` / `deployments.fixture([tag])`: the scripts carrying
the tag, in order. -/
def runTagged (tag : String) (scripts : List DeployScript) (w : World) : Step Unit :=
  runScripts (scripts.filter (fun s => decide (tag ∈ s.tags))) w

/-! ## observations on a trace -/

/-- The deploy calls in a trace, in order. -/
def deployCalls : List Event → List (String × DeployOptions)
  | [] => []
  | .deploy n o :: es => (n, o) :: deployCalls es
  | _ :: es => deployCalls es

/-- The verify calls in a trace, in order. -/
def verifyCalls : List Event → List (JsVal × List JsVal)
  | [] => []
  | .verify a args :: es => (a, args) :: verifyCalls es
  | _ :: es => verifyCalls es

/-- The submissions to the explorer in a trace, in order. -/
def submissions : List Event → List (JsVal × List JsVal)
  | [] => []
  | .helper (.submit a args) :: es => (a, args) :: submissions es
  | _ :: es => submissions es

/-- The log lines in a trace, in order. -/
def logLines : List Event → List String
  | [] => []
  | .log m :: es => m :: logLines es
  | _ :: es => logLines es

/-! ## test/unit/FundMe.test.js -/

/-- An account or contract address. -/
abbrev Address := String

/-- The fields of a transaction receipt that the suite reads. -/
structure Receipt where
  gasUsed : Nat
  effectiveGasPrice : Nat
  deriving DecidableEq, Repr

/-- The deployed FundMe contract together with its provider, as the suite drives it through the
client library. The contract is external to the repository and is a parameter; `σ` is the state
of the chain. A transaction names its sender; a reverted call is the `.error` branch. -/
structure Contract (σ : Type) where
  address : Address
  fund : Address → Nat → σ → Except JsError σ
  withdraw : Address → σ → Except JsError (Receipt × σ)
  cheaperWithdraw : Address → σ → Except JsError (Receipt × σ)
  getFunder : Nat → σ → Except JsError Address
  getAddressToAmountFunded : Address → σ → Nat
  getBalance : Address → σ → Nat

/-- The constant `sendValue = ethers.utils.parseEther("1")`: 1 ETH in wei. -/
def sendValue : Nat := 1000000000000000000

/-- The values taken by `i` in `for (let i = 1; i < 6; i++)`. -/
def loopIndices : List Nat := [1, 2, 3, 4, 5]

/-- The `beforeEach` of the `withdraw` block: `fundMe.fund` with value `sendValue`, sent by
the deployer. It runs on the freshly deployed contract left by the outer `beforeEach`. -/
def withdrawBeforeEach {σ : Type} (c : Contract σ) (deployer : Address) (s : σ) : Except JsError σ :=
  c.fund deployer sendValue s

/-- The arranging loop: `fundMe.connect(accounts[i]).fund(...)` for each index. -/
def fundLoop {σ : Type} (c : Contract σ) (accounts : List Address) : List Nat → σ → Except JsError σ
  | [], s => .ok s
  | i :: rest, s =>
    match accounts[i]? with
    | none => .error "TypeError: accounts[i] is undefined"
    | some a =>
      match c.fund a sendValue s with
      | .error e => .error e
      | .ok s1 => fundLoop c accounts rest s1

/-- The asserting loop: `assert.equal(getAddressToAmountFunded(accounts[i].address), 0)` for each
index. -/
def ledgerLoop {σ : Type} (c : Contract σ) (accounts : List Address) : List Nat → σ → Bool
  | [], _ => true
  | i :: rest, s =>
    match accounts[i]? with
    | none => false
    | some a => decide (c.getAddressToAmountFunded a s = 0) && ledgerLoop c accounts rest s

/-- The assertion `expect(fundMe.getFunder(0)).to.be.reverted`. -/
def expectReverted {α : Type} : Except JsError α → Bool
  | .error _ => true
  | .ok _ => false

/-- The test "withdraw ETH from a single founder" (lines 92-139), after its `beforeEach`:
`true` when it passes. -/
def testWithdrawSingle {σ : Type} (c : Contract σ) (deployer : Address) (s0 : σ) : Bool :=
  match withdrawBeforeEach c deployer s0 with
  | .error _ => false
  | .ok s1 =>
    let startingFundMeBalance := c.getBalance c.address s1
    let startingDeployerBalance := c.getBalance deployer s1
    match c.withdraw deployer s1 with
    | .error _ => false
    | .ok (transactionReceipt, s2) =>
      let gasCost := transactionReceipt.gasUsed * transactionReceipt.effectiveGasPrice
      let endingFundMeBalance := c.getBalance c.address s2
      let endingDeployerBalance := c.getBalance deployer s2
      decide (endingFundMeBalance = 0) &&
        decide (startingFundMeBalance + startingDeployerBalance = endingDeployerBalance + gasCost)

/-- The test "Cheaper single withdraw testing..." (lines 141-188), after its `beforeEach`. -/
def testCheaperSingle {σ : Type} (c : Contract σ) (deployer : Address) (s0 : σ) : Bool :=
  match withdrawBeforeEach c deployer s0 with
  | .error _ => false
  | .ok s1 =>
    let startingFundMeBalance := c.getBalance c.address s1
    let startingDeployerBalance := c.getBalance deployer s1
    match c.cheaperWithdraw deployer s1 with
    | .error _ => false
    | .ok (transactionReceipt, s2) =>
      let gasCost := transactionReceipt.gasUsed * transactionReceipt.effectiveGasPrice
      let endingFundMeBalance := c.getBalance c.address s2
      let endingDeployerBalance := c.getBalance deployer s2
      decide (endingFundMeBalance = 0) &&
        decide (startingFundMeBalance + startingDeployerBalance = endingDeployerBalance + gasCost)

/-- The test "allows us to withdraw with multiple getFunder" (lines 190-255), after its
`beforeEach`; `accounts` is the result of `ethers.getSigners()`. -/
def testWithdrawMulti {σ : Type} (c : Contract σ) (deployer : Address) (accounts : List Address)
    (s0 : σ) : Bool :=
  match withdrawBeforeEach c deployer s0 with
  | .error _ => false
  | .ok s1 =>
    match fundLoop c accounts loopIndices s1 with
    | .error _ => false
    | .ok s2 =>
      let startingFundMeBalance := c.getBalance c.address s2
      let startingDeployerBalance := c.getBalance deployer s2
      match c.withdraw deployer s2 with
      | .error _ => false
      | .ok (transactionReceipt, s3) =>
        let gasCost := transactionReceipt.gasUsed * transactionReceipt.effectiveGasPrice
        let endingFundMeBalance := c.getBalance c.address s3
        let endingDeployerBalance := c.getBalance deployer s3
        decide (endingFundMeBalance = 0) &&
          decide (startingFundMeBalance + startingDeployerBalance = endingDeployerBalance + gasCost) &&
          expectReverted (c.getFunder 0 s3) &&
          ledgerLoop c accounts loopIndices s3

/-- The test "CheaperWithdraw testing..." (lines 267-332), after its `beforeEach`. -/
def testCheaperMulti {σ : Type} (c : Contract σ) (deployer : Address) (accounts : List Address)
    (s0 : σ) : Bool :=
  match withdrawBeforeEach c deployer s0 with
  | .error _ => false
  | .ok s1 =>
    match fundLoop c accounts loopIndices s1 with
    | .error _ => false
    | .ok s2 =>
      let startingFundMeBalance := c.getBalance c.address s2
      let startingDeployerBalance := c.getBalance deployer s2
      match c.cheaperWithdraw deployer s2 with
      | .error _ => false
      | .ok (transactionReceipt, s3) =>
        let gasCost := transactionReceipt.gasUsed * transactionReceipt.effectiveGasPrice
        let endingFundMeBalance := c.getBalance c.address s3
        let endingDeployerBalance := c.getBalance deployer s3
        decide (endingFundMeBalance = 0) &&
          decide (startingFundMeBalance + startingDeployerBalance = endingDeployerBalance + gasCost) &&
          expectReverted (c.getFunder 0 s3) &&
          ledgerLoop c accounts loopIndices s3

/-! ## the outcomes asserted by the withdrawal tests, as the specification words them -/

/-- The outcomes asserted after the withdrawal `act`, sent by the owner, from the state in which
the owner alone has funded the contract with 1 ETH: the contract balance is 0, and starting
contract balance + starting owner balance = ending owner balance + gas cost. -/
def SingleFunderOutcomes {σ : Type} (c : Contract σ)
    (act : Address → σ → Except JsError (Receipt × σ)) (deployer : Address) (s0 : σ) : Prop :=
  ∃ s1 r s2,
    c.fund deployer sendValue s0 = .ok s1 ∧
    act deployer s1 = .ok (r, s2) ∧
    c.getBalance c.address s2 = 0 ∧
    c.getBalance c.address s1 + c.getBalance deployer s1 =
      c.getBalance deployer s2 + r.gasUsed * r.effectiveGasPrice

/-- The outcomes asserted after the withdrawal `act`, sent by the owner, from the state in which
the owner and then the accounts 1 to 5 have each funded the contract with 1 ETH: the contract
balance is 0, starting contract balance + starting owner balance = ending owner balance + gas
cost, `getFunder(0)` reverts, and the ledger entry of each of the accounts 1 to 5 is 0. -/
def MultiFunderOutcomes {σ : Type} (c : Contract σ)
    (act : Address → σ → Except JsError (Receipt × σ)) (deployer : Address)
    (accounts : List Address) (s0 : σ) : Prop :=
  ∃ a1 a2 a3 a4 a5 s1 s2 s3 s4 s5 s6 r s7,
    accounts[1]? = some a1 ∧ accounts[2]? = some a2 ∧ accounts[3]? = some a3 ∧
    accounts[4]? = some a4 ∧ accounts[5]? = some a5 ∧
    c.fund deployer sendValue s0 = .ok s1 ∧
    c.fund a1 sendValue s1 = .ok s2 ∧
    c.fund a2 sendValue s2 = .ok s3 ∧
    c.fund a3 sendValue s3 = .ok s4 ∧
    c.fund a4 sendValue s4 = .ok s5 ∧
    c.fund a5 sendValue s5 = .ok s6 ∧
    act deployer s6 = .ok (r, s7) ∧
    c.getBalance c.address s7 = 0 ∧
    c.getBalance c.address s6 + c.getBalance deployer s6 =
      c.getBalance deployer s7 + r.gasUsed * r.effectiveGasPrice ∧
    (∃ e, c.getFunder 0 s7 = .error e) ∧
    c.getAddressToAmountFunded a1 s7 = 0 ∧
    c.getAddressToAmountFunded a2 s7 = 0 ∧
    c.getAddressToAmountFunded a3 s7 = 0 ∧
    c.getAddressToAmountFunded a4 s7 = 0 ∧
    c.getAddressToAmountFunded a5 s7 = 0

/-- The contract with its two withdrawal operations exchanged. -/
def Contract.swapWithdraw {σ : Type} (c : Contract σ) : Contract σ :=
  { c with withdraw := c.cheaperWithdraw, cheaperWithdraw := c.withdraw }

/-! ## test/unit/FundMe.test.js: the guard of the suite and its outer `beforeEach` -/

/-- What the conditional expression at the top of the test file (lines 10-13) selects: the
function `describe.skip`, which is named and not called, so that no suite runs; or the call
`describe(name, ...)`, which registers the suite to run. -/
inductive SuiteSelection where
  | describeSkip
  | describe (name : String)
  deriving DecidableEq, Repr

/-- The conditional expression at the top of the test file (lines 10-13), on the value of
`!developmentChains.includes(network.name)`. -/
def fundMeSuite (cfg : HelperConfig) (network : Network) : SuiteSelection :=
  if !(decide (network.name ∈ cfg.developmentChains)) then .describeSkip
  else .describe "FundMe"

/-- The outer `beforeEach` of the suite (lines 20-47): `deployments.fixture(["all"])` runs the
scripts tagged `all` on a fresh store, then `ethers.getContract` fetches the "FundMe" and the
"MockV3Aggregator" deployments by name. -/
def suiteBeforeEach (cfg : HelperConfig) (hre : Hre) (env : ProcessEnv) (verify : VerifyFn) :
    Except JsError (Deployment × Deployment) :=
  match runTagged "all" (deployScripts cfg hre env verify) World.empty with
  | (.error e, _) => .error e
  | (.ok _, w) =>
    match get "FundMe" w with
    | .error e => .error e
    | .ok fundMe =>
      match get "MockV3Aggregator" w with
      | .error e => .error e
      | .ok mockV3Aggregator => .ok (fundMe, mockV3Aggregator)

/-! ## sample inputs -/

/-- A helper config with two development chains, a chain (5) with a price feed and a chain (137)
whose entry has no price feed. -/
def sampleConfig : HelperConfig :=
  { networkConfig := fun k =>
      if k = .num 5 then some ⟨.str "0xFeed"⟩
      else if k = .num 137 then some ⟨.undefined⟩
      else none
    developmentChains := ["hardhat", "localhost"]
    DECIMALS := .num 8
    INITIAL_ANSWER := .num 200000000000 }

/-- A runtime environment on which every deploy call succeeds. -/
def sampleHre (name : String) (chainId blockConfirmations : JsVal) : Hre :=
  { network := ⟨name, ⟨chainId, blockConfirmations⟩⟩
    deployer := .str "0xDeployer"
    deployOutcome := fun _ n _ => if n = "FundMe" then .ok "0xFundMe" else .ok "0xMock" }

/-- A runtime environment on which every deploy call fails. -/
def failingHre (name : String) (chainId blockConfirmations : JsVal) : Hre :=
  { network := ⟨name, ⟨chainId, blockConfirmations⟩⟩
    deployer := .str "0xDeployer"
    deployOutcome := fun _ _ _ => .error "deploy failed" }

/-- A verification helper whose call throws. -/
def throwingVerify : VerifyFn :=
  fun address args => (.error "verification failed", [.submit address args])

/-- A block explorer that rejects every submission. -/
def rejectingExplorer : JsVal → List JsVal → Except JsError Unit :=
  fun _ _ => .error "already verified"

/-- The state of a sample chain: the balance of the contract, the balances of the accounts, the
ledger of the contract and its list of funders. -/
structure SampleChain where
  pot : Nat
  wallet : List (Address × Nat)
  ledger : List (Address × Nat)
  funders : List Address
  deriving DecidableEq, Repr

/-- The amount recorded for an address, 0 when there is none. -/
def amountOf (l : List (Address × Nat)) (a : Address) : Nat :=
  (l.lookup a).getD 0

/-- A withdrawal of the sample contract, owned by "owner": the whole balance goes to the owner,
who pays 30000 of gas; the ledger entries are reset except those of the addresses in `keep`, and
`clearFunders` tells whether the list of funders is emptied. -/
def sampleWithdraw (keep : List Address) (clearFunders : Bool) (sender : Address)
    (s : SampleChain) : Except JsError (Receipt × SampleChain) :=
  if sender ≠ "owner" then .error "FundMe__NotOwner"
  else
    .ok (⟨30000, 1⟩,
      { pot := 0
        wallet := ("owner", amountOf s.wallet "owner" + s.pot - 30000) :: s.wallet
        ledger := keep.map (fun a => (a, amountOf s.ledger a))
        funders := if clearFunders then [] else s.funders })

/-- A sample contract at the address "fundMe", owned by "owner". -/
def sampleContract (keep : List Address) (clearFunders : Bool) : Contract SampleChain :=
  { address := "fundMe"
    fund := fun a v s =>
      if v < 1000 then .error "You need to spend more ETH!"
      else .ok
        { pot := s.pot + v
          wallet := (a, amountOf s.wallet a - v) :: s.wallet
          ledger := (a, amountOf s.ledger a + v) :: s.ledger
          funders := s.funders ++ [a] }
    withdraw := sampleWithdraw keep clearFunders
    cheaperWithdraw := sampleWithdraw keep clearFunders
    getFunder := fun i s =>
      match s.funders[i]? with
      | some a => .ok a
      | none => .error "reverted"
    getAddressToAmountFunded := fun a s => amountOf s.ledger a
    getBalance := fun a s => if a = "fundMe" then s.pot else amountOf s.wallet a }

/-- The signers of the sample chain; the first is the owner. -/
def sampleAccounts : List Address := ["owner", "a1", "a2", "a3", "a4", "a5", "a6"]

/-- The sample chain right after deployment: every signer holds 10 ETH. -/
def sampleStart : SampleChain :=
  { pot := 0
    wallet := sampleAccounts.map (fun a => (a, 10 * sendValue))
    ledger := []
    funders := [] }

/-! ## Theorems: traces -/

theorem deployCalls_append (a b : List Event) :
    deployCalls (a ++ b) = deployCalls a ++ deployCalls b := by
  induction a with
  | nil => rfl
  | cons e es ih => cases e <;> simp [deployCalls, ih]

theorem verifyCalls_append (a b : List Event) :
    verifyCalls (a ++ b) = verifyCalls a ++ verifyCalls b := by
  induction a with
  | nil => rfl
  | cons e es ih => cases e <;> simp [verifyCalls, ih]

theorem submissions_append (a b : List Event) :
    submissions (a ++ b) = submissions a ++ submissions b := by
  induction a with
  | nil => rfl
  | cons e es ih =>
    cases e with
    | helper h => cases h <;> simp [submissions, ih]
    | _ => simp [submissions, ih]

theorem logLines_append (a b : List Event) :
    logLines (a ++ b) = logLines a ++ logLines b := by
  induction a with
  | nil => rfl
  | cons e es ih => cases e <;> simp [logLines, ih]

theorem deployCalls_helper (es : List HelperEvent) :
    deployCalls (es.map Event.helper) = [] := by
  induction es with
  | nil => rfl
  | cons e es ih => simpa [deployCalls] using ih

theorem verifyCalls_helper (es : List HelperEvent) :
    verifyCalls (es.map Event.helper) = [] := by
  induction es with
  | nil => rfl
  | cons e es ih => simpa [verifyCalls] using ih

/-! ## Theorems: framework calls -/

theorem deploy_ok (hre : Hre) (name : String) (o : DeployOptions) (w : World) (addr : String)
    (h : hre.deployOutcome w.store name o = .ok addr) :
    deploy hre name o w =
      (.ok ⟨addr, o.args⟩, ⟨(name, ⟨addr, o.args⟩) :: w.store, w.trace ++ [.deploy name o]⟩) := by
  simp [deploy, h, World.emit]

theorem deploy_error (hre : Hre) (name : String) (o : DeployOptions) (w : World) (e : JsError)
    (h : hre.deployOutcome w.store name o = .error e) :
    deploy hre name o w = (.error e, ⟨w.store, w.trace ++ [.deploy name o]⟩) := by
  simp [deploy, h, World.emit]

theorem envTruthy_iff (k : Option String) :
    envTruthy k = true ↔ ∃ s, k = some s ∧ s ≠ "" := by
  cases k with
  | none => simp [envTruthy]
  | some s => simp [envTruthy, JsVal.truthy]

/-! ## Theorems: the Contract Deployer, path by path -/

theorem deployFundMe_resolve_error (cfg : HelperConfig) (hre : Hre) (env : ProcessEnv)
    (verify : VerifyFn) (w : World) (e : JsError)
    (h : ethUsdPriceFeedAddress cfg hre w = .error e) :
    deployFundMe cfg hre env verify w = (.error e, w) := by
  simp [deployFundMe, h]

theorem deployFundMe_deploy_error (cfg : HelperConfig) (hre : Hre) (env : ProcessEnv)
    (verify : VerifyFn) (w : World) (feed : JsVal) (e : JsError)
    (h : ethUsdPriceFeedAddress cfg hre w = .ok feed)
    (hd : hre.deployOutcome w.store "FundMe" (fundMeOptions hre [feed]) = .error e) :
    deployFundMe cfg hre env verify w =
      (.error e, ⟨w.store, w.trace ++ [.deploy "FundMe" (fundMeOptions hre [feed])]⟩) := by
  simp [deployFundMe, h, deploy_error _ _ _ _ _ hd]

theorem deployFundMe_skip_verify (cfg : HelperConfig) (hre : Hre) (env : ProcessEnv)
    (verify : VerifyFn) (w : World) (feed : JsVal) (addr : String)
    (h : ethUsdPriceFeedAddress cfg hre w = .ok feed)
    (hd : hre.deployOutcome w.store "FundMe" (fundMeOptions hre [feed]) = .ok addr)
    (hc : ¬ (hre.network.name ∉ cfg.developmentChains ∧ envTruthy env.ETHERSCAN_API_KEY = true)) :
    deployFundMe cfg hre env verify w =
      (.ok (), ⟨("FundMe", ⟨addr, [feed]⟩) :: w.store,
        w.trace ++ [.deploy "FundMe" (fundMeOptions hre [feed]),
          .log "---------------------------------------------------------"]⟩) := by
  simp only [deployFundMe, h, deploy_ok _ _ _ _ _ hd]
  rw [if_neg hc]
  simp [log, World.emit, fundMeOptions]

theorem deployFundMe_verify (cfg : HelperConfig) (hre : Hre) (env : ProcessEnv)
    (verify : VerifyFn) (w : World) (feed : JsVal) (addr : String)
    (h : ethUsdPriceFeedAddress cfg hre w = .ok feed)
    (hd : hre.deployOutcome w.store "FundMe" (fundMeOptions hre [feed]) = .ok addr)
    (hc : hre.network.name ∉ cfg.developmentChains ∧ envTruthy env.ETHERSCAN_API_KEY = true) :
    deployFundMe cfg hre env verify w =
      (match (verify (.str addr) [feed]).1 with
        | .error e => .error e
        | .ok _ => .ok (),
       ⟨("FundMe", ⟨addr, [feed]⟩) :: w.store,
        w.trace ++ [.deploy "FundMe" (fundMeOptions hre [feed]), .verify (.str addr) [feed]] ++
          (verify (.str addr) [feed]).2.map Event.helper ++
          (match (verify (.str addr) [feed]).1 with
            | .error _ => []
            | .ok _ => [.log "---------------------------------------------------------"])⟩) := by
  simp only [deployFundMe, h, deploy_ok _ _ _ _ _ hd]
  rw [if_pos hc]
  simp only [fundMeOptions]
  rcases hv : verify (.str addr) [feed] with ⟨r, es⟩
  cases r <;> simp [log, World.emit, World.emitHelper]

theorem deployFundMe_verify_throws (cfg : HelperConfig) (hre : Hre) (env : ProcessEnv)
    (verify : VerifyFn) (w : World) (feed : JsVal) (addr : String) (e : JsError)
    (h : ethUsdPriceFeedAddress cfg hre w = .ok feed)
    (hd : hre.deployOutcome w.store "FundMe" (fundMeOptions hre [feed]) = .ok addr)
    (hc : hre.network.name ∉ cfg.developmentChains ∧ envTruthy env.ETHERSCAN_API_KEY = true)
    (hv : (verify (.str addr) [feed]).1 = .error e) :
    (deployFundMe cfg hre env verify w).1 = .error e ∧
      logLines (deployFundMe cfg hre env verify w).2.trace = logLines w.trace := by
  rw [deployFundMe_verify cfg hre env verify w feed addr h hd hc, hv]
  refine ⟨rfl, ?_⟩
  simp only [logLines_append]
  have hh : ∀ es : List HelperEvent, logLines (es.map Event.helper) = [] := by
    intro es
    induction es with
    | nil => rfl
    | cons x xs ih => simpa [logLines] using ih
  simp [logLines, hh]

theorem deployFundMe_deployCalls (cfg : HelperConfig) (hre : Hre) (env : ProcessEnv)
    (verify : VerifyFn) (w : World) (feed : JsVal)
    (h : ethUsdPriceFeedAddress cfg hre w = .ok feed) :
    deployCalls (deployFundMe cfg hre env verify w).2.trace =
      deployCalls w.trace ++ [("FundMe", fundMeOptions hre [feed])] := by
  cases hd : hre.deployOutcome w.store "FundMe" (fundMeOptions hre [feed]) with
  | error e =>
    rw [deployFundMe_deploy_error cfg hre env verify w feed e h hd]
    simp [deployCalls_append, deployCalls]
  | ok addr =>
    by_cases hc : hre.network.name ∉ cfg.developmentChains ∧
        envTruthy env.ETHERSCAN_API_KEY = true
    · rw [deployFundMe_verify cfg hre env verify w feed addr h hd hc]
      cases (verify (.str addr) [feed]).1 <;>
        simp [deployCalls_append, deployCalls, deployCalls_helper]
    · rw [deployFundMe_skip_verify cfg hre env verify w feed addr h hd hc]
      simp [deployCalls_append, deployCalls]

theorem resolve_dev (cfg : HelperConfig) (hre : Hre) (w : World)
    (hdev : hre.network.name ∈ cfg.developmentChains) :
    ethUsdPriceFeedAddress cfg hre w =
      match w.store.lookup "MockV3Aggregator" with
      | some d => .ok (.str d.address)
      | none => .error "No deployment found for: MockV3Aggregator" := by
  unfold ethUsdPriceFeedAddress get
  rw [if_pos hdev]
  cases w.store.lookup "MockV3Aggregator" <;> rfl

theorem resolve_live (cfg : HelperConfig) (hre : Hre) (w : World)
    (hdev : hre.network.name ∉ cfg.developmentChains) :
    ethUsdPriceFeedAddress cfg hre w =
      match cfg.networkConfig hre.network.config.chainId with
      | none => .error "TypeError: Cannot read properties of undefined (reading ethUsdPriceFeed)"
      | some entry => .ok entry.ethUsdPriceFeed := by
  unfold ethUsdPriceFeedAddress
  rw [if_neg hdev]

/-! ## Theorems: the Mock Deployer, path by path -/

theorem deployMocks_skip (cfg : HelperConfig) (hre : Hre) (w : World)
    (hdev : hre.network.name ∉ cfg.developmentChains) :
    deployMocks cfg hre w = (.ok (), w) := by
  unfold deployMocks
  rw [if_neg hdev]

theorem deployMocks_ok (cfg : HelperConfig) (hre : Hre) (w : World) (addr : String)
    (hdev : hre.network.name ∈ cfg.developmentChains)
    (hd : hre.deployOutcome w.store "MockV3Aggregator" (mockOptions cfg hre) = .ok addr) :
    deployMocks cfg hre w =
      (.ok (), ⟨("MockV3Aggregator", ⟨addr, [cfg.DECIMALS, cfg.INITIAL_ANSWER]⟩) :: w.store,
        w.trace ++ [.log "Local network detected! Deploying mocks...",
          .deploy "MockV3Aggregator" (mockOptions cfg hre),
          .log "Mocks deployed!", .log "---------------------------------------"]⟩) := by
  unfold deployMocks
  rw [if_pos hdev]
  have hd1 : hre.deployOutcome (log "Local network detected! Deploying mocks..." w).store
      "MockV3Aggregator" (mockOptions cfg hre) = .ok addr := hd
  simp only [deploy_ok _ _ _ _ _ hd1]
  simp [log, World.emit, mockOptions]

theorem deployMocks_error (cfg : HelperConfig) (hre : Hre) (w : World) (e : JsError)
    (hdev : hre.network.name ∈ cfg.developmentChains)
    (hd : hre.deployOutcome w.store "MockV3Aggregator" (mockOptions cfg hre) = .error e) :
    deployMocks cfg hre w =
      (.error e, ⟨w.store,
        w.trace ++ [.log "Local network detected! Deploying mocks...",
          .deploy "MockV3Aggregator" (mockOptions cfg hre)]⟩) := by
  unfold deployMocks
  rw [if_pos hdev]
  have hd1 : hre.deployOutcome (log "Local network detected! Deploying mocks..." w).store
      "MockV3Aggregator" (mockOptions cfg hre) = .error e := hd
  simp only [deploy_error _ _ _ _ _ hd1]
  simp [log, World.emit]

theorem runTagged_all (cfg : HelperConfig) (hre : Hre) (env : ProcessEnv) (verify : VerifyFn)
    (w : World) :
    runTagged "all" (deployScripts cfg hre env verify) w =
      match deployMocks cfg hre w with
      | (.error e, w1) => (.error e, w1)
      | (.ok _, w1) =>
        match deployFundMe cfg hre env verify w1 with
        | (.error e, w2) => (.error e, w2)
        | (.ok _, w2) => (.ok (), w2) := by
  simp [runTagged, deployScripts, deployMocksTags, deployFundMeTags, runScripts]

/-! ## Theorems: the claims on the deploy scripts -/

/-- C1: whenever the price-feed address resolves, to `feed`, the Contract Deployer issues exactly
one deploy call, of "FundMe", whose constructor-argument list is the one-element list `[feed]`;
on a development chain `feed` is the address of the stored "MockV3Aggregator" record, and
otherwise it is `networkConfig[chainId]["ethUsdPriceFeed"]`. -/
theorem contract_deployer_constructor_args (cfg : HelperConfig) (hre : Hre) (env : ProcessEnv)
    (verify : VerifyFn) (w : World) (feed : JsVal)
    (h : ethUsdPriceFeedAddress cfg hre w = .ok feed) :
    (∃ o : DeployOptions,
      deployCalls (deployFundMe cfg hre env verify w).2.trace =
        deployCalls w.trace ++ [("FundMe", o)] ∧ o.args = [feed] ∧ o.args.length = 1) ∧
    (hre.network.name ∈ cfg.developmentChains →
      ∃ d, w.store.lookup "MockV3Aggregator" = some d ∧ feed = .str d.address) ∧
    (hre.network.name ∉ cfg.developmentChains →
      ∃ entry, cfg.networkConfig hre.network.config.chainId = some entry ∧
        feed = entry.ethUsdPriceFeed) := by
  refine ⟨⟨fundMeOptions hre [feed], deployFundMe_deployCalls cfg hre env verify w feed h,
    rfl, rfl⟩, ?_, ?_⟩
  · intro hdev
    rw [resolve_dev cfg hre w hdev] at h
    cases hl : w.store.lookup "MockV3Aggregator" with
    | none => simp [hl] at h
    | some d =>
      refine ⟨d, rfl, ?_⟩
      simp [hl] at h
      exact h.symm
  · intro hdev
    rw [resolve_live cfg hre w hdev] at h
    cases hl : cfg.networkConfig hre.network.config.chainId with
    | none => simp [hl] at h
    | some entry =>
      refine ⟨entry, rfl, ?_⟩
      simp [hl] at h
      exact h.symm

/-- C1 at a sample: chain 5 of the sample config, not a development chain, on an empty store. -/
theorem contract_deployer_constructor_args_witness :
    ethUsdPriceFeedAddress sampleConfig (sampleHre "goerli" (.num 5) .undefined) World.empty =
      .ok (.str "0xFeed") ∧
    ∃ o : DeployOptions,
      deployCalls (deployFundMe sampleConfig (sampleHre "goerli" (.num 5) .undefined) ⟨none⟩
          throwingVerify World.empty).2.trace =
        deployCalls World.empty.trace ++ [("FundMe", o)] ∧
      o.args = [.str "0xFeed"] ∧ o.args.length = 1 :=
  ⟨by rfl, (contract_deployer_constructor_args sampleConfig
    (sampleHre "goerli" (.num 5) .undefined) ⟨none⟩ throwingVerify World.empty (.str "0xFeed")
    (by rfl)).1⟩

/-- C2: on a development chain, with every deploy call succeeding, running the scripts tagged
`all` from the empty store succeeds and leaves a "MockV3Aggregator" record and a "FundMe" record,
and the constructor-argument list of the "FundMe" record is the address of the
"MockV3Aggregator" record. -/
theorem deploy_all_on_development_chain (cfg : HelperConfig) (hre : Hre) (env : ProcessEnv)
    (verify : VerifyFn)
    (hdev : hre.network.name ∈ cfg.developmentChains)
    (hok : ∀ st n o, ∃ a, hre.deployOutcome st n o = .ok a) :
    ∃ (mock fundMe : Deployment) (w : World),
      runTagged "all" (deployScripts cfg hre env verify) World.empty = (.ok (), w) ∧
      w.store.lookup "MockV3Aggregator" = some mock ∧
      w.store.lookup "FundMe" = some fundMe ∧
      fundMe.args = [.str mock.address] := by
  obtain ⟨a1, h1⟩ := hok World.empty.store "MockV3Aggregator" (mockOptions cfg hre)
  have hm := deployMocks_ok cfg hre World.empty a1 hdev h1
  set w1 : World := ⟨("MockV3Aggregator", ⟨a1, [cfg.DECIMALS, cfg.INITIAL_ANSWER]⟩) ::
      World.empty.store,
    World.empty.trace ++ [.log "Local network detected! Deploying mocks...",
      .deploy "MockV3Aggregator" (mockOptions cfg hre),
      .log "Mocks deployed!", .log "---------------------------------------"]⟩ with hw1
  have hr : ethUsdPriceFeedAddress cfg hre w1 = .ok (.str a1) := by
    rw [resolve_dev cfg hre w1 hdev]
    simp [hw1, List.lookup]
  obtain ⟨a2, h2⟩ := hok w1.store "FundMe" (fundMeOptions hre [.str a1])
  have hf := deployFundMe_skip_verify cfg hre env verify w1 (.str a1) a2 hr h2
    (fun hc => hc.1 hdev)
  refine ⟨⟨a1, [cfg.DECIMALS, cfg.INITIAL_ANSWER]⟩, ⟨a2, [.str a1]⟩,
    ⟨("FundMe", ⟨a2, [.str a1]⟩) :: w1.store,
      w1.trace ++ [.deploy "FundMe" (fundMeOptions hre [.str a1]),
        .log "---------------------------------------------------------"]⟩, ?_, ?_, ?_, rfl⟩
  · rw [runTagged_all, hm]
    simp only [hf]
  · simp [hw1, World.empty, List.lookup]
  · simp [List.lookup]

/-- C2 at a sample: the chain "hardhat" of the sample config. -/
theorem deploy_all_on_development_chain_witness :
    "hardhat" ∈ sampleConfig.developmentChains ∧
    ∃ (mock fundMe : Deployment) (w : World),
      runTagged "all" (deployScripts sampleConfig (sampleHre "hardhat" (.num 31337) .undefined)
        ⟨none⟩ throwingVerify) World.empty = (.ok (), w) ∧
      w.store.lookup "MockV3Aggregator" = some mock ∧
      w.store.lookup "FundMe" = some fundMe ∧
      fundMe.args = [.str mock.address] :=
  ⟨by decide, deploy_all_on_development_chain sampleConfig
    (sampleHre "hardhat" (.num 31337) .undefined) ⟨none⟩ throwingVerify (by decide)
    (fun _ n _ => by
      by_cases hn : n = "FundMe"
      · exact ⟨"0xFundMe", by simp [sampleHre, hn]⟩
      · exact ⟨"0xMock", by simp [sampleHre, hn]⟩)⟩

/-- C3: on a development chain the Mock Deployer issues exactly one deploy call, of
"MockV3Aggregator" with contract "MockV3Aggregator", constructor arguments
`[DECIMALS, INITIAL_ANSWER]` and sender the deployer account; on any other chain it issues no
deploy call, writes no log line and leaves the world as it was. -/
theorem mock_deployer_deploy_call (cfg : HelperConfig) (hre : Hre) (w : World) :
    (hre.network.name ∈ cfg.developmentChains →
      deployCalls (deployMocks cfg hre w).2.trace =
        deployCalls w.trace ++
          [("MockV3Aggregator",
            { contract := .str "MockV3Aggregator", from_ := hre.deployer, log := true,
              args := [cfg.DECIMALS, cfg.INITIAL_ANSWER], waitConfirmations := .undefined })]) ∧
    (hre.network.name ∉ cfg.developmentChains →
      deployCalls (deployMocks cfg hre w).2.trace = deployCalls w.trace ∧
      logLines (deployMocks cfg hre w).2.trace = logLines w.trace ∧
      deployMocks cfg hre w = (.ok (), w)) := by
  constructor
  · intro hdev
    cases hd : hre.deployOutcome w.store "MockV3Aggregator" (mockOptions cfg hre) with
    | error e =>
      rw [deployMocks_error cfg hre w e hdev hd]
      simp [deployCalls_append, deployCalls, mockOptions]
    | ok addr =>
      rw [deployMocks_ok cfg hre w addr hdev hd]
      simp [deployCalls_append, deployCalls, mockOptions]
  · intro hdev
    rw [deployMocks_skip cfg hre w hdev]
    exact ⟨rfl, rfl, rfl⟩

/-- C3 at samples: the chain "hardhat" (development) and the chain "goerli" (not). -/
theorem mock_deployer_deploy_call_witness :
    deployCalls (deployMocks sampleConfig (sampleHre "hardhat" (.num 31337) .undefined)
      World.empty).2.trace =
      [("MockV3Aggregator",
        { contract := .str "MockV3Aggregator", from_ := .str "0xDeployer", log := true,
          args := [.num 8, .num 200000000000], waitConfirmations := .undefined })] ∧
    deployMocks sampleConfig (sampleHre "goerli" (.num 5) .undefined) World.empty =
      (.ok (), World.empty) :=
  ⟨(mock_deployer_deploy_call sampleConfig (sampleHre "hardhat" (.num 31337) .undefined)
      World.empty).1 (by decide),
   ((mock_deployer_deploy_call sampleConfig (sampleHre "goerli" (.num 5) .undefined)
      World.empty).2 (by decide)).2.2⟩

/-- C4: after a successful "FundMe" deploy, returning `addr`, the Contract Deployer calls `verify`
exactly when the chain is not a development chain and `ETHERSCAN_API_KEY` holds a non-empty
value; the call receives `addr` and the argument list of the deploy call; when it is not called,
no verify call is issued and nothing is submitted to the explorer. -/
theorem verify_called_iff (cfg : HelperConfig) (hre : Hre) (env : ProcessEnv)
    (verify : VerifyFn) (w : World) (feed : JsVal) (addr : String)
    (h : ethUsdPriceFeedAddress cfg hre w = .ok feed)
    (hd : hre.deployOutcome w.store "FundMe" (fundMeOptions hre [feed]) = .ok addr) :
    deployCalls (deployFundMe cfg hre env verify w).2.trace =
      deployCalls w.trace ++ [("FundMe", fundMeOptions hre [feed])] ∧
    ((hre.network.name ∉ cfg.developmentChains ∧
        ∃ k, env.ETHERSCAN_API_KEY = some k ∧ k ≠ "") →
      verifyCalls (deployFundMe cfg hre env verify w).2.trace =
        verifyCalls w.trace ++ [(.str addr, (fundMeOptions hre [feed]).args)]) ∧
    (¬ (hre.network.name ∉ cfg.developmentChains ∧
        ∃ k, env.ETHERSCAN_API_KEY = some k ∧ k ≠ "") →
      verifyCalls (deployFundMe cfg hre env verify w).2.trace = verifyCalls w.trace ∧
      submissions (deployFundMe cfg hre env verify w).2.trace = submissions w.trace) := by
  refine ⟨deployFundMe_deployCalls cfg hre env verify w feed h, ?_, ?_⟩
  · intro hc
    rw [← envTruthy_iff] at hc
    rw [deployFundMe_verify cfg hre env verify w feed addr h hd hc]
    cases (verify (.str addr) [feed]).1 <;>
      simp [verifyCalls_append, verifyCalls, verifyCalls_helper, fundMeOptions]
  · intro hc
    rw [← envTruthy_iff] at hc
    rw [deployFundMe_skip_verify cfg hre env verify w feed addr h hd hc]
    simp [verifyCalls_append, verifyCalls, submissions_append, submissions]

/-- C4 at a sample: chain 5 of the sample config with an API key set. -/
theorem verify_called_iff_witness :
    ethUsdPriceFeedAddress sampleConfig (sampleHre "goerli" (.num 5) .undefined) World.empty =
      .ok (.str "0xFeed") ∧
    verifyCalls (deployFundMe sampleConfig (sampleHre "goerli" (.num 5) .undefined)
      ⟨some "KEY"⟩ throwingVerify World.empty).2.trace =
      [(.str "0xFundMe", [.str "0xFeed"])] :=
  ⟨by rfl, (verify_called_iff sampleConfig (sampleHre "goerli" (.num 5) .undefined)
    ⟨some "KEY"⟩ throwingVerify World.empty (.str "0xFeed") "0xFundMe" (by rfl) (by rfl)).2.1
    ⟨by decide, "KEY", rfl, by decide⟩⟩

/-- C5, as stated, fails: on the chain 137 of the sample config, not a development chain, whose
entry has no `ethUsdPriceFeed`, the Contract Deployer issues the "FundMe" deploy call, with the
argument list `[undefined]`. -/
theorem missing_feed_value_still_deploys :
    "polygon" ∉ sampleConfig.developmentChains ∧
    sampleConfig.networkConfig (.num 137) = some ⟨.undefined⟩ ∧
    deployCalls (deployFundMe sampleConfig (failingHre "polygon" (.num 137) .undefined) ⟨none⟩
      throwingVerify World.empty).2.trace =
      [("FundMe",
        { contract := .undefined, from_ := .str "0xDeployer", log := true,
          args := [.undefined], waitConfirmations := .num 1 })] ∧
    deployFundMe sampleConfig (sampleHre "polygon" (.num 137) .undefined) ⟨none⟩
      throwingVerify World.empty =
      (.ok (), ⟨[("FundMe", ⟨"0xFundMe", [.undefined]⟩)],
        [.deploy "FundMe"
          { contract := .undefined, from_ := .str "0xDeployer", log := true,
            args := [.undefined], waitConfirmations := .num 1 },
         .log "---------------------------------------------------------"]⟩) :=
  ⟨by decide, rfl, by rfl, by rfl⟩

/-- C5, amended: on a chain that is not a development chain, when `networkConfig` has no entry
for the chainId the Contract Deployer fails and leaves the world as it was, so it issues no
"FundMe" deploy call; when the entry exists and has no `ethUsdPriceFeed`, it issues the "FundMe"
deploy call with the argument list `[undefined]`. -/
theorem missing_chain_entry_aborts (cfg : HelperConfig) (hre : Hre) (env : ProcessEnv)
    (verify : VerifyFn) (w : World)
    (hdev : hre.network.name ∉ cfg.developmentChains) :
    (cfg.networkConfig hre.network.config.chainId = none →
      (∃ e, deployFundMe cfg hre env verify w = (.error e, w)) ∧
      deployCalls (deployFundMe cfg hre env verify w).2.trace = deployCalls w.trace) ∧
    (cfg.networkConfig hre.network.config.chainId = some ⟨.undefined⟩ →
      ∃ o : DeployOptions,
        deployCalls (deployFundMe cfg hre env verify w).2.trace =
          deployCalls w.trace ++ [("FundMe", o)] ∧ o.args = [.undefined]) := by
  constructor
  · intro hn
    have hr := resolve_live cfg hre w hdev
    rw [hn] at hr
    rw [deployFundMe_resolve_error cfg hre env verify w _ hr]
    exact ⟨⟨_, rfl⟩, rfl⟩
  · intro hs
    have hr := resolve_live cfg hre w hdev
    rw [hs] at hr
    exact ⟨fundMeOptions hre [.undefined],
      deployFundMe_deployCalls cfg hre env verify w .undefined hr, rfl⟩

/-- C5, amended, at a sample: chain 1 has no entry in the sample config. -/
theorem missing_chain_entry_aborts_witness :
    "mainnet" ∉ sampleConfig.developmentChains ∧
    sampleConfig.networkConfig (.num 1) = none ∧
    deployCalls (deployFundMe sampleConfig (sampleHre "mainnet" (.num 1) .undefined) ⟨none⟩
      throwingVerify World.empty).2.trace = deployCalls World.empty.trace :=
  ⟨by decide, rfl, ((missing_chain_entry_aborts sampleConfig
    (sampleHre "mainnet" (.num 1) .undefined) ⟨none⟩ throwingVerify World.empty
    (by decide)).1 rfl).2⟩

/-- C6: on a chain that is not a development chain, with `ETHERSCAN_API_KEY` holding a non-empty
value, after a successful "FundMe" deploy: when the explorer rejects the submission made by
`verify`, the Contract Deployer still returns normally and the last effect it issues is its
final log line. -/
theorem verification_failure_not_fatal (cfg : HelperConfig) (hre : Hre) (env : ProcessEnv)
    (explorer : JsVal → List JsVal → Except JsError Unit) (w : World) (feed : JsVal)
    (addr : String) (e : JsError)
    (hdev : hre.network.name ∉ cfg.developmentChains)
    (hkey : ∃ k, env.ETHERSCAN_API_KEY = some k ∧ k ≠ "")
    (h : ethUsdPriceFeedAddress cfg hre w = .ok feed)
    (hd : hre.deployOutcome w.store "FundMe" (fundMeOptions hre [feed]) = .ok addr)
    (hfail : explorer (.str addr) [feed] = .error e) :
    (deployFundMe cfg hre env (verify explorer) w).1 = .ok () ∧
    (deployFundMe cfg hre env (verify explorer) w).2.trace.getLast? =
      some (.log "---------------------------------------------------------") ∧
    submissions (deployFundMe cfg hre env (verify explorer) w).2.trace =
      submissions w.trace ++ [(.str addr, [feed])] := by
  have hc : hre.network.name ∉ cfg.developmentChains ∧
      envTruthy env.ETHERSCAN_API_KEY = true := ⟨hdev, (envTruthy_iff _).2 hkey⟩
  rw [deployFundMe_verify cfg hre env (verify explorer) w feed addr h hd hc]
  simp [verify, hfail, submissions_append, submissions]

/-- C6 at a sample: chain 5 of the sample config, an API key set, an explorer that rejects. -/
theorem verification_failure_not_fatal_witness :
    rejectingExplorer (.str "0xFundMe") [.str "0xFeed"] = .error "already verified" ∧
    (deployFundMe sampleConfig (sampleHre "goerli" (.num 5) .undefined) ⟨some "KEY"⟩
      (verify rejectingExplorer) World.empty).1 = .ok () :=
  ⟨rfl, (verification_failure_not_fatal sampleConfig (sampleHre "goerli" (.num 5) .undefined)
    ⟨some "KEY"⟩ rejectingExplorer World.empty (.str "0xFeed") "0xFundMe" "already verified"
    (by decide) ⟨"KEY", rfl, by decide⟩ (by rfl) (by rfl) rfl).1⟩

/-- C7: on a development chain, a failure `e` of the mock deploy call is returned by the Mock
Deployer and aborts the scripts tagged `all` with `e` before any "FundMe" deploy call; and when
the store holds no "MockV3Aggregator" record the Contract Deployer fails leaving the world as it
was, so it issues no "FundMe" deploy call and no verify call. -/
theorem mock_failure_is_fatal (cfg : HelperConfig) (hre : Hre) (env : ProcessEnv)
    (verify : VerifyFn) (w : World)
    (hdev : hre.network.name ∈ cfg.developmentChains) :
    (∀ e, hre.deployOutcome w.store "MockV3Aggregator" (mockOptions cfg hre) = .error e →
      (deployMocks cfg hre w).1 = .error e ∧
      (runTagged "all" (deployScripts cfg hre env verify) w).1 = .error e ∧
      deployCalls (runTagged "all" (deployScripts cfg hre env verify) w).2.trace =
        deployCalls w.trace ++ [("MockV3Aggregator", mockOptions cfg hre)] ∧
      verifyCalls (runTagged "all" (deployScripts cfg hre env verify) w).2.trace =
        verifyCalls w.trace) ∧
    (w.store.lookup "MockV3Aggregator" = none →
      (∃ e, deployFundMe cfg hre env verify w = (.error e, w)) ∧
      deployCalls (deployFundMe cfg hre env verify w).2.trace = deployCalls w.trace ∧
      verifyCalls (deployFundMe cfg hre env verify w).2.trace = verifyCalls w.trace) := by
  constructor
  · intro e he
    have hm := deployMocks_error cfg hre w e hdev he
    rw [runTagged_all, hm]
    simp [deployCalls_append, deployCalls, verifyCalls_append, verifyCalls]
  · intro hn
    have hr := resolve_dev cfg hre w hdev
    rw [hn] at hr
    rw [deployFundMe_resolve_error cfg hre env verify w _ hr]
    exact ⟨⟨_, rfl⟩, rfl, rfl⟩

/-- C7 at a sample: the chain "hardhat" of the sample config, with every deploy call failing. -/
theorem mock_failure_is_fatal_witness :
    "hardhat" ∈ sampleConfig.developmentChains ∧
    (deployMocks sampleConfig (failingHre "hardhat" (.num 31337) .undefined) World.empty).1 =
      .error "deploy failed" ∧
    deployCalls (deployFundMe sampleConfig (failingHre "hardhat" (.num 31337) .undefined) ⟨none⟩
      throwingVerify World.empty).2.trace = deployCalls World.empty.trace :=
  ⟨by decide,
   ((mock_failure_is_fatal sampleConfig (failingHre "hardhat" (.num 31337) .undefined) ⟨none⟩
      throwingVerify World.empty (by decide)).1 "deploy failed" rfl).1,
   ((mock_failure_is_fatal sampleConfig (failingHre "hardhat" (.num 31337) .undefined) ⟨none⟩
      throwingVerify World.empty (by decide)).2 rfl).2.1⟩

/-- C8, as stated, fails: with `blockConfirmations` configured as 0 on chain 5 of the sample
config, the "FundMe" deploy call is issued with `waitConfirmations` 1, not 0. -/
theorem zero_confirmations_replaced_by_one :
    (sampleHre "goerli" (.num 5) (.num 0)).network.config.blockConfirmations = .num 0 ∧
    deployCalls (deployFundMe sampleConfig (sampleHre "goerli" (.num 5) (.num 0)) ⟨none⟩
      throwingVerify World.empty).2.trace =
      [("FundMe",
        { contract := .undefined, from_ := .str "0xDeployer", log := true,
          args := [.str "0xFeed"], waitConfirmations := .num 1 })] ∧
    (JsVal.num 1 ≠ JsVal.num 0) :=
  ⟨rfl, by rfl, by decide⟩

/-- C8, amended: whenever the price-feed address resolves, the `waitConfirmations` of the one
"FundMe" deploy call is the configured `blockConfirmations` when that is a number other than 0,
and is 1 when `blockConfirmations` is 0 or is not configured. -/
theorem wait_confirmations_default (cfg : HelperConfig) (hre : Hre) (env : ProcessEnv)
    (verify : VerifyFn) (w : World) (feed : JsVal)
    (h : ethUsdPriceFeedAddress cfg hre w = .ok feed) :
    ∃ o : DeployOptions,
      deployCalls (deployFundMe cfg hre env verify w).2.trace =
        deployCalls w.trace ++ [("FundMe", o)] ∧
      (∀ n : Int, hre.network.config.blockConfirmations = .num n → n ≠ 0 →
        o.waitConfirmations = .num n) ∧
      (hre.network.config.blockConfirmations = .num 0 → o.waitConfirmations = .num 1) ∧
      (hre.network.config.blockConfirmations = .undefined → o.waitConfirmations = .num 1) := by
  refine ⟨fundMeOptions hre [feed], deployFundMe_deployCalls cfg hre env verify w feed h,
    ?_, ?_, ?_⟩
  · intro n hn hne
    simp [fundMeOptions, hn, JsVal.or, JsVal.truthy, hne]
  · intro hn
    simp [fundMeOptions, hn, JsVal.or, JsVal.truthy]
  · intro hn
    simp [fundMeOptions, hn, JsVal.or, JsVal.truthy]

/-- C8, amended, at a sample: 6 block confirmations configured on chain 5 of the sample config. -/
theorem wait_confirmations_default_witness :
    ethUsdPriceFeedAddress sampleConfig (sampleHre "goerli" (.num 5) (.num 6)) World.empty =
      .ok (.str "0xFeed") ∧
    ∃ o : DeployOptions,
      deployCalls (deployFundMe sampleConfig (sampleHre "goerli" (.num 5) (.num 6)) ⟨none⟩
        throwingVerify World.empty).2.trace =
        deployCalls World.empty.trace ++ [("FundMe", o)] ∧
      o.waitConfirmations = .num 6 := by
  refine ⟨by rfl, ?_⟩
  obtain ⟨o, h1, h2, -, -⟩ := wait_confirmations_default sampleConfig
    (sampleHre "goerli" (.num 5) (.num 6)) ⟨none⟩ throwingVerify World.empty (.str "0xFeed")
    (by rfl)
  exact ⟨o, h1, h2 6 rfl (by decide)⟩

/-! ## Theorems: the withdrawal tests -/

theorem fundLoop_cons_ok {σ : Type} (c : Contract σ) (accounts : List Address) (i : Nat)
    (rest : List Nat) (s s' : σ) :
    fundLoop c accounts (i :: rest) s = .ok s' ↔
      ∃ a s1, accounts[i]? = some a ∧ c.fund a sendValue s = .ok s1 ∧
        fundLoop c accounts rest s1 = .ok s' := by
  simp only [fundLoop]
  cases ha : accounts[i]? with
  | none => simp
  | some a =>
    cases hf : c.fund a sendValue s with
    | error e => simp [hf]
    | ok s1 => simp [hf]

theorem fundLoop_nil_ok {σ : Type} (c : Contract σ) (accounts : List Address) (s s' : σ) :
    fundLoop c accounts [] s = .ok s' ↔ s = s' := by
  simp [fundLoop]

theorem ledgerLoop_cons {σ : Type} (c : Contract σ) (accounts : List Address) (i : Nat)
    (rest : List Nat) (s : σ) :
    ledgerLoop c accounts (i :: rest) s = true ↔
      ∃ a, accounts[i]? = some a ∧ c.getAddressToAmountFunded a s = 0 ∧
        ledgerLoop c accounts rest s = true := by
  simp only [ledgerLoop]
  cases ha : accounts[i]? with
  | none => simp
  | some a => simp

theorem expectReverted_iff {α : Type} (r : Except JsError α) :
    expectReverted r = true ↔ ∃ e, r = .error e := by
  cases r <;> simp [expectReverted]

theorem testWithdrawSingle_iff {σ : Type} (c : Contract σ) (deployer : Address) (s0 : σ) :
    testWithdrawSingle c deployer s0 = true ↔ SingleFunderOutcomes c c.withdraw deployer s0 := by
  unfold testWithdrawSingle SingleFunderOutcomes withdrawBeforeEach
  constructor
  · intro h
    cases hf : c.fund deployer sendValue s0 with
    | error e => simp [hf] at h
    | ok s1 =>
      cases hw : c.withdraw deployer s1 with
      | error e => simp [hf, hw] at h
      | ok p =>
        obtain ⟨r, s2⟩ := p
        simp [hf, hw] at h
        exact ⟨s1, r, s2, rfl, hw, h.1, h.2⟩
  · rintro ⟨s1, r, s2, hf, hw, hb, hq⟩
    simp [hf, hw, hb, hq]

theorem testWithdrawMulti_iff {σ : Type} (c : Contract σ) (deployer : Address)
    (accounts : List Address) (s0 : σ) :
    testWithdrawMulti c deployer accounts s0 = true ↔
      MultiFunderOutcomes c c.withdraw deployer accounts s0 := by
  have key : testWithdrawMulti c deployer accounts s0 = true ↔
      ∃ s1 s6 r s7, c.fund deployer sendValue s0 = .ok s1 ∧
        fundLoop c accounts loopIndices s1 = .ok s6 ∧
        c.withdraw deployer s6 = .ok (r, s7) ∧
        c.getBalance c.address s7 = 0 ∧
        c.getBalance c.address s6 + c.getBalance deployer s6 =
          c.getBalance deployer s7 + r.gasUsed * r.effectiveGasPrice ∧
        (∃ e, c.getFunder 0 s7 = .error e) ∧
        ledgerLoop c accounts loopIndices s7 = true := by
    unfold testWithdrawMulti withdrawBeforeEach
    constructor
    · intro h
      cases hf : c.fund deployer sendValue s0 with
      | error e => simp [hf] at h
      | ok s1 =>
        cases hl : fundLoop c accounts loopIndices s1 with
        | error e => simp [hf, hl] at h
        | ok s6 =>
          cases hw : c.withdraw deployer s6 with
          | error e => simp [hf, hl, hw] at h
          | ok p =>
            obtain ⟨r, s7⟩ := p
            simp [hf, hl, hw, expectReverted_iff] at h
            exact ⟨s1, s6, r, s7, rfl, hl, hw, h.1.1.1, h.1.1.2, h.1.2, h.2⟩
    · rintro ⟨s1, s6, r, s7, hf, hl, hw, hb, hq, hg, hc⟩
      have hg' := (expectReverted_iff _).2 hg
      simp [hf, hl, hw, hb, hq, hg', hc]
  rw [key]
  unfold MultiFunderOutcomes loopIndices
  constructor
  · rintro ⟨s1, s6, r, s7, hf, hl, hw, hb, hq, hg, hc⟩
    simp only [fundLoop_cons_ok, fundLoop_nil_ok] at hl
    obtain ⟨a1, s2, h1, f1, a2, s3, h2, f2, a3, s4, h3, f3, a4, s5, h4, f4, a5, s6', h5, f5,
      rfl⟩ := hl
    simp only [ledgerLoop_cons, h1, h2, h3, h4, h5, Option.some.injEq] at hc
    obtain ⟨_, rfl, c1, _, rfl, c2, _, rfl, c3, _, rfl, c4, _, rfl, c5, -⟩ := hc
    exact ⟨_, _, _, _, _, s1, s2, s3, s4, s5, _, r, s7, h1, h2, h3, h4, h5, hf, f1, f2, f3,
      f4, f5, hw, hb, hq, hg, c1, c2, c3, c4, c5⟩
  · rintro ⟨a1, a2, a3, a4, a5, s1, s2, s3, s4, s5, s6, r, s7, h1, h2, h3, h4, h5, hf, f1, f2,
      f3, f4, f5, hw, hb, hq, hg, c1, c2, c3, c4, c5⟩
    refine ⟨s1, s6, r, s7, hf, ?_, hw, hb, hq, hg, ?_⟩
    · simp [fundLoop, h1, h2, h3, h4, h5, f1, f2, f3, f4, f5]
    · simp [ledgerLoop, h1, h2, h3, h4, h5, c1, c2, c3, c4, c5]

theorem testCheaperSingle_swap {σ : Type} (c : Contract σ) (deployer : Address) (s0 : σ) :
    testCheaperSingle c deployer s0 = testWithdrawSingle c.swapWithdraw deployer s0 := rfl

theorem testCheaperMulti_swap {σ : Type} (c : Contract σ) (deployer : Address)
    (accounts : List Address) (s0 : σ) :
    testCheaperMulti c deployer accounts s0 =
      testWithdrawMulti c.swapWithdraw deployer accounts s0 := rfl

/-! ## Theorems: the claims on the withdrawal tests -/

/-- C9, as stated, fails: on a sample contract whose withdrawals keep the list of funders, both
single-funder tests pass although `getFunder(0)` does not revert afterwards; the multi-funder
tests fail on it. The single-funder tests do not assert the reset of the funders. -/
theorem single_funder_tests_skip_funder_reset :
    testWithdrawSingle (sampleContract [] false) "owner" sampleStart = true ∧
    testCheaperSingle (sampleContract [] false) "owner" sampleStart = true ∧
    (∃ s1 r s2,
      (sampleContract [] false).fund "owner" sendValue sampleStart = .ok s1 ∧
      (sampleContract [] false).cheaperWithdraw "owner" s1 = .ok (r, s2) ∧
      (sampleContract [] false).withdraw "owner" s1 = .ok (r, s2) ∧
      (sampleContract [] false).getFunder 0 s2 = .ok "owner") ∧
    testWithdrawMulti (sampleContract [] false) "owner" sampleAccounts sampleStart = false ∧
    testCheaperMulti (sampleContract [] false) "owner" sampleAccounts sampleStart = false :=
  ⟨by decide, by decide, ⟨_, _, _, rfl, rfl, rfl, rfl⟩, by decide, by decide⟩

/-- C9, amended: each cheaper-withdraw test is its withdraw counterpart with `cheaperWithdraw`
called in place of `withdraw`, so the two assert the same outcomes from the same starting state:
from the state funded by the owner alone, contract balance 0 and starting contract balance +
starting owner balance = ending owner balance + gas cost; from the state funded by the owner and
the accounts 1 to 5, these two and also that `getFunder(0)` reverts and that the ledger entry of
each of the accounts 1 to 5 is 0. -/
theorem cheaper_tests_assert_same_outcomes {σ : Type} (c : Contract σ) (deployer : Address)
    (accounts : List Address) (s0 : σ) :
    (testWithdrawSingle c deployer s0 = true ↔
      SingleFunderOutcomes c c.withdraw deployer s0) ∧
    (testCheaperSingle c deployer s0 = true ↔
      SingleFunderOutcomes c c.cheaperWithdraw deployer s0) ∧
    (testWithdrawMulti c deployer accounts s0 = true ↔
      MultiFunderOutcomes c c.withdraw deployer accounts s0) ∧
    (testCheaperMulti c deployer accounts s0 = true ↔
      MultiFunderOutcomes c c.cheaperWithdraw deployer accounts s0) ∧
    testCheaperSingle c deployer s0 = testWithdrawSingle c.swapWithdraw deployer s0 ∧
    testCheaperMulti c deployer accounts s0 =
      testWithdrawMulti c.swapWithdraw deployer accounts s0 :=
  ⟨testWithdrawSingle_iff c deployer s0,
   testWithdrawSingle_iff c.swapWithdraw deployer s0,
   testWithdrawMulti_iff c deployer accounts s0,
   testWithdrawMulti_iff c.swapWithdraw deployer accounts s0,
   rfl, rfl⟩

/-- C10, as stated, fails: on a sample contract whose withdrawal resets every ledger entry but
that of the owner, the multi-funder withdrawal test passes although the ledger entry of the
owner, one of the six funding accounts, is 1 ETH afterwards. -/
theorem owner_entry_not_checked :
    testWithdrawMulti (sampleContract ["owner"] true) "owner" sampleAccounts sampleStart = true ∧
    ∃ s1 s2 r s3,
      withdrawBeforeEach (sampleContract ["owner"] true) "owner" sampleStart = .ok s1 ∧
      fundLoop (sampleContract ["owner"] true) sampleAccounts loopIndices s1 = .ok s2 ∧
      (sampleContract ["owner"] true).withdraw "owner" s2 = .ok (r, s3) ∧
      (sampleContract ["owner"] true).getAddressToAmountFunded "owner" s3 = sendValue ∧
      sendValue ≠ 0 :=
  ⟨by decide, _, _, _, _, rfl, rfl, rfl, rfl, by decide⟩

/-- C10, amended: the multi-funder withdrawal test passes exactly when the owner and then the
accounts 1 to 5 each fund the contract with 1 ETH, `withdraw()` sent by the owner succeeds, and
afterwards the contract balance is 0, the balance equation holds, `getFunder(0)` reverts and the
ledger entry of each of the accounts 1 to 5 is 0; so a contract that leaves the entry of any one
of these five accounts non-zero fails the test. The entry of the owner is not examined. -/
theorem multi_funder_test_requirements {σ : Type} (c : Contract σ) (deployer : Address)
    (accounts : List Address) (s0 : σ) :
    (testWithdrawMulti c deployer accounts s0 = true ↔
      MultiFunderOutcomes c c.withdraw deployer accounts s0) ∧
    (∀ a1 a2 a3 a4 a5 s1 s2 s3 s4 s5 s6 r s7,
      accounts[1]? = some a1 → accounts[2]? = some a2 → accounts[3]? = some a3 →
      accounts[4]? = some a4 → accounts[5]? = some a5 →
      c.fund deployer sendValue s0 = .ok s1 →
      c.fund a1 sendValue s1 = .ok s2 →
      c.fund a2 sendValue s2 = .ok s3 →
      c.fund a3 sendValue s3 = .ok s4 →
      c.fund a4 sendValue s4 = .ok s5 →
      c.fund a5 sendValue s5 = .ok s6 →
      c.withdraw deployer s6 = .ok (r, s7) →
      (c.getAddressToAmountFunded a1 s7 ≠ 0 ∨ c.getAddressToAmountFunded a2 s7 ≠ 0 ∨
        c.getAddressToAmountFunded a3 s7 ≠ 0 ∨ c.getAddressToAmountFunded a4 s7 ≠ 0 ∨
        c.getAddressToAmountFunded a5 s7 ≠ 0) →
      testWithdrawMulti c deployer accounts s0 = false) := by
  refine ⟨testWithdrawMulti_iff c deployer accounts s0, ?_⟩
  intro a1 a2 a3 a4 a5 s1 s2 s3 s4 s5 s6 r s7 h1 h2 h3 h4 h5 hf f1 f2 f3 f4 f5 hw hne
  cases ht : testWithdrawMulti c deployer accounts s0 with
  | false => rfl
  | true =>
    exfalso
    obtain ⟨b1, b2, b3, b4, b5, t1, t2, t3, t4, t5, t6, r', t7, g1, g2, g3, g4, g5, gf, k1, k2,
      k3, k4, k5, gw, -, -, -, c1, c2, c3, c4, c5⟩ :=
      (testWithdrawMulti_iff c deployer accounts s0).1 ht
    cases h1.symm.trans g1
    cases h2.symm.trans g2
    cases h3.symm.trans g3
    cases h4.symm.trans g4
    cases h5.symm.trans g5
    cases hf.symm.trans gf
    cases f1.symm.trans k1
    cases f2.symm.trans k2
    cases f3.symm.trans k3
    cases f4.symm.trans k4
    cases f5.symm.trans k5
    cases hw.symm.trans gw
    rcases hne with h | h | h | h | h
    · exact h c1
    · exact h c2
    · exact h c3
    · exact h c4
    · exact h c5

/-- C10, amended, at a sample: a contract whose withdrawal keeps the entry of the account "a3"
fails the multi-funder withdrawal test. -/
theorem multi_funder_test_requirements_witness :
    testWithdrawMulti (sampleContract ["a3"] true) "owner" sampleAccounts sampleStart = false :=
  (multi_funder_test_requirements (sampleContract ["a3"] true) "owner" sampleAccounts
    sampleStart).2 _ _ _ _ _ _ _ _ _ _ _ _ _ rfl rfl rfl rfl rfl rfl rfl rfl rfl rfl rfl rfl
    (Or.inr (Or.inr (Or.inl (by decide))))

/-! ## Theorems: the guard of the suite -/

theorem suiteBeforeEach_fails_off_development (cfg : HelperConfig) (hre : Hre)
    (env : ProcessEnv) (verify : VerifyFn)
    (hdev : hre.network.name ∉ cfg.developmentChains) :
    ∃ e, suiteBeforeEach cfg hre env verify = .error e := by
  unfold suiteBeforeEach
  simp only [runTagged_all, deployMocks_skip cfg hre World.empty hdev]
  cases hr : ethUsdPriceFeedAddress cfg hre World.empty with
  | error e =>
    simp only [deployFundMe_resolve_error cfg hre env verify World.empty e hr]
    exact ⟨e, rfl⟩
  | ok feed =>
    cases hd : hre.deployOutcome World.empty.store "FundMe" (fundMeOptions hre [feed]) with
    | error e =>
      simp only [deployFundMe_deploy_error cfg hre env verify World.empty feed e hr hd]
      exact ⟨e, rfl⟩
    | ok addr =>
      by_cases hc : hre.network.name ∉ cfg.developmentChains ∧
          envTruthy env.ETHERSCAN_API_KEY = true
      · simp only [deployFundMe_verify cfg hre env verify World.empty feed addr hr hd hc]
        cases (verify (.str addr) [feed]).1 with
        | error e => exact ⟨e, rfl⟩
        | ok u => exact ⟨"No deployment found for: MockV3Aggregator", by
            simp [get, World.empty, List.lookup]⟩
      · simp only [deployFundMe_skip_verify cfg hre env verify World.empty feed addr hr hd hc]
        exact ⟨"No deployment found for: MockV3Aggregator", by
          simp [get, World.empty, List.lookup]⟩

theorem suiteBeforeEach_ok_on_development (cfg : HelperConfig) (hre : Hre)
    (env : ProcessEnv) (verify : VerifyFn)
    (hdev : hre.network.name ∈ cfg.developmentChains)
    (hok : ∀ st n o, ∃ a, hre.deployOutcome st n o = .ok a) :
    ∃ fundMe mock, suiteBeforeEach cfg hre env verify = .ok (fundMe, mock) ∧
      fundMe.args = [.str mock.address] := by
  obtain ⟨a1, h1⟩ := hok World.empty.store "MockV3Aggregator" (mockOptions cfg hre)
  have hm := deployMocks_ok cfg hre World.empty a1 hdev h1
  set w1 : World := ⟨("MockV3Aggregator", ⟨a1, [cfg.DECIMALS, cfg.INITIAL_ANSWER]⟩) ::
      World.empty.store,
    World.empty.trace ++ [.log "Local network detected! Deploying mocks...",
      .deploy "MockV3Aggregator" (mockOptions cfg hre),
      .log "Mocks deployed!", .log "---------------------------------------"]⟩ with hw1
  have hr : ethUsdPriceFeedAddress cfg hre w1 = .ok (.str a1) := by
    rw [resolve_dev cfg hre w1 hdev]
    simp [hw1, List.lookup]
  obtain ⟨a2, h2⟩ := hok w1.store "FundMe" (fundMeOptions hre [.str a1])
  have hf := deployFundMe_skip_verify cfg hre env verify w1 (.str a1) a2 hr h2
    (fun hc => hc.1 hdev)
  refine ⟨⟨a2, [.str a1]⟩, ⟨a1, [cfg.DECIMALS, cfg.INITIAL_ANSWER]⟩, ?_, rfl⟩
  unfold suiteBeforeEach
  simp only [runTagged_all, hm, hf]
  simp [get, hw1, World.empty, List.lookup]

/-- C11, at the failing input: the comment on line 11 says that `describe.skip` skips the suite on
a development chain, as the claim does, but on the development chain "hardhat" of the sample
config the guard registers the "FundMe" suite to run and does not select `describe.skip`, and on
the chain "goerli", not a development chain, it selects `describe.skip`. -/
theorem suite_registered_on_development_chain :
    "hardhat" ∈ sampleConfig.developmentChains ∧
    fundMeSuite sampleConfig ⟨"hardhat", ⟨.num 31337, .undefined⟩⟩ = .describe "FundMe" ∧
    fundMeSuite sampleConfig ⟨"hardhat", ⟨.num 31337, .undefined⟩⟩ ≠ .describeSkip ∧
    "goerli" ∉ sampleConfig.developmentChains ∧
    fundMeSuite sampleConfig ⟨"goerli", ⟨.num 5, .undefined⟩⟩ = .describeSkip :=
  ⟨by decide, by decide, by decide, by decide, by decide⟩

/-- The guard as written, for every network: it selects `describe.skip` when `network.name` is
not in `developmentChains`, and registers the "FundMe" suite to run when it is. -/
theorem suite_guard (cfg : HelperConfig) (network : Network) :
    (network.name ∉ cfg.developmentChains → fundMeSuite cfg network = .describeSkip) ∧
    (network.name ∈ cfg.developmentChains → fundMeSuite cfg network = .describe "FundMe") := by
  constructor
  · intro h
    simp [fundMeSuite, h]
  · intro h
    simp [fundMeSuite, h]

/-- The guard as written, at the chain "goerli" and the chain "hardhat" of the sample config. -/
theorem suite_guard_witness :
    fundMeSuite sampleConfig ⟨"goerli", ⟨.num 5, .undefined⟩⟩ = .describeSkip ∧
    fundMeSuite sampleConfig ⟨"hardhat", ⟨.num 31337, .undefined⟩⟩ = .describe "FundMe" :=
  ⟨(suite_guard sampleConfig ⟨"goerli", ⟨.num 5, .undefined⟩⟩).1 (by decide),
   (suite_guard sampleConfig ⟨"hardhat", ⟨.num 31337, .undefined⟩⟩).2 (by decide)⟩

end FundMe
